import Mathlib

set_option autoImplicit false

/-!
# Verification of the sanic-beskar token core

A shallow embedding of the token issuance / validation / refresh pipeline of
`sanic_beskar/base.py` and of the duration parser of
`sanic_praetorian/utilities.py`, together with theorems settling the frozen
claims about the natural-language specification.

Modelling conventions:
* A Python claim dict is an association list `ClaimSet` with string keys;
  dict assignment / `update` are embedded as `insertClaim` / `updateClaims`.
* Epoch timestamps are `Int`; lifespans (pendulum durations) are `Nat`
  second counts.
* Exceptions become an `Except BeskarError` result; the constructor
  `BeskarError.pyError` stands for a raw Python `TypeError`/`AttributeError`
  escaping the library's own error taxonomy.
* Cryptographic serialization (jwt.encode / pyseto encode-decrypt) is out of
  scope: a token is represented by its claim set, and the PASETO key-trial
  loop abstracts one key's decrypt-or-verify plus JSON deserialization into
  a single `attempt` function.
-/

namespace Beskar

/-- JSON-compatible claim values (the kinds the library actually stores). -/
inductive JVal where
  | int (n : Int)
  | str (s : String)
  | bool (b : Bool)
  deriving DecidableEq, Repr

/-- A Python dict of claims, embedded as an association list (unique keys in
any dict that Python code can actually build). -/
abbrev ClaimSet := List (String × JVal)

/-- Dict lookup: value of the first pair with the given key. -/
def getv : ClaimSet → String → Option JVal
  | [], _ => none
  | (k', v) :: rest, k => if k' = k then some v else getv rest k

/-- Python's `k in data` membership test. -/
def hasKey (d : ClaimSet) (k : String) : Bool :=
  (getv d k).isSome

/-- Python dict assignment `d[k] = v`: replace the value of an existing key,
otherwise append the new pair. -/
def insertClaim : ClaimSet → String → JVal → ClaimSet
  | [], k, v => [(k, v)]
  | (k', v') :: rest, k, v =>
      if k' = k then (k', v) :: rest else (k', v') :: insertClaim rest k v

/-- Python `d.update(e)`: assign every pair of `e` into `d` in order. -/
def updateClaims (d : ClaimSet) (e : ClaimSet) : ClaimSet :=
  e.foldl (fun acc p => insertClaim acc p.1 p.2) d

/-- The keys of a claim set are pairwise distinct (true of every Python dict). -/
def keysNodup (d : ClaimSet) : Prop :=
  (d.map Prod.fst).Nodup

/-- Python's int view of a claim value used in order comparisons
(`bool` is an `int` subtype in Python; a string comparand would raise
`TypeError`, modelled by `none`). -/
def JVal.asInt : JVal → Option Int
  | .int n => some n
  | .bool b => some (if b then 1 else 0)
  | .str _ => none

/-- Lookup of a claim expected to be (Python-)integer valued. -/
def intClaim (d : ClaimSet) (k : String) : Option Int :=
  (getv d k).bind JVal.asInt

/-- Modelled from the spec: the refresh-expiry reserved claim key
(`REFRESH_EXPIRATION_CLAIM` lives in the constants module, which is not part
of the sources here; only the key's identity matters, never its spelling). -/
def REFRESH_EXPIRATION_CLAIM : String := "rf_exp"

/-- Modelled from the spec: the registration purpose-tag claim key. -/
def IS_REGISTRATION_TOKEN_CLAIM : String := "is_registration_token"

/-- Modelled from the spec: the reset purpose-tag claim key. -/
def IS_RESET_TOKEN_CLAIM : String := "is_reset_token"

/-- Modelled from the spec: the reserved claim keys that custom claims must
not collide with (`iat`, `exp`, `jti`, `id`, `rls`, the refresh-expiry key
and the two purpose-tag keys). -/
def RESERVED_CLAIMS : List String :=
  ["iat", "exp", "jti", "id", "rls",
   REFRESH_EXPIRATION_CLAIM, IS_REGISTRATION_TOKEN_CLAIM, IS_RESET_TOKEN_CLAIM]

/-- The error taxonomy of `sanic_beskar.exceptions` (plus `pyError` for raw
Python exceptions and `attributeError` for the `getattr` dispatch failure
that `read_token` catches). -/
inductive BeskarError where
  | authenticationError
  | blacklistedError
  | claimCollisionError
  | configurationError
  | earlyRefreshError
  | expiredAccessError
  | expiredRefreshError
  | invalidRegistrationToken
  | invalidResetToken
  | invalidTokenHeader
  | invalidUserError
  | legacyScheme
  | missingClaimError
  | missingToken
  | missingUserError
  | misusedRegistrationToken
  | misusedResetToken
  | totpRequired
  | attributeError
  | pyError
  deriving DecidableEq, Repr

/-- `AccessType` from the constants module: the purpose a token is being
validated for. -/
inductive AccessType where
  | access
  | refresh
  | register
  | reset
  deriving DecidableEq, Repr

/-- The configured token codec (`BESKAR_TOKEN_PROVIDER`). -/
inductive Provider where
  | jwt
  | paseto
  deriving DecidableEq, Repr

/-- The `passlib` `CryptContext` held by the guard, abstracted to the four
operations `base.py` calls on it (`verify`, `needs_update`, `hash` under the
default scheme, and `identify`). -/
structure CryptContext where
  verify : String → String → Bool
  needs_update : String → Bool
  hash : String → String
  identify : String → String

/-- A principal instance, with the attributes `base.py` reads.
`validate` is the result of the optional validity predicate method
(`none` when the user class has no such method); `hasTotpAttr` is Python's
`hasattr(user, 'totp')` and `totp` the attribute's (string) value. -/
structure User where
  identity : JVal
  rolenames : List String
  password : String
  validate : Option Bool
  hasTotpAttr : Bool
  totp : String
  username : String
  deriving DecidableEq, Repr

/-- The guard configuration read in `init_app`, restricted to the fields the
claims exercise. Lifespans are second counts. -/
structure Config where
  token_provider : Provider
  access_lifespan : Nat
  refresh_lifespan : Nat
  has_encode_hook : Bool
  has_refresh_hook : Bool
  is_blacklisted : JVal → Bool
  pwd_ctx : CryptContext
  totp_enforce : Bool
  hash_autoupdate : Bool
  hash_autotest : Bool
  header_name : String
  header_type : String
  cookie_name : String
  token_places : List String

/-- `",".join(rolenames)`. -/
def joinComma (l : List String) : String :=
  String.intercalate "," l

/-- `Beskar._check_user`: `MissingUserError` for an absent user, then the
optional validity predicate, whose falsy result is `InvalidUserError`. -/
def check_user (user : Option User) : Except BeskarError Unit :=
  match user with
  | none => .error .missingUserError
  | some u =>
    match u.validate with
    | none => .ok ()
    | some b => if b then .ok () else .error .invalidUserError

/-- The collision test of `encode_jwt_token`/`encode_paseto_token`:
true when some custom-claim key is reserved
(Python: `not set(custom_claims.keys()).isdisjoint(RESERVED_CLAIMS)`). -/
def claimsCollide (custom_claims : ClaimSet) : Bool :=
  custom_claims.any (fun p => RESERVED_CLAIMS.contains p.1)

/-- Observable side effects of an encode call, in the order the source
performs them. -/
inductive EncodeEffect where
  | userCheck
  | encodeHook
  | codecCall
  deriving DecidableEq, Repr

/-- The `payload_parts` construction shared verbatim by
`encode_jwt_token` and `encode_paseto_token` in the source: the six reserved
claims (`iat = now`, `refresh-expiry = now + refresh lifespan`,
`exp = min(now + access lifespan, refresh-expiry)`, a fresh `jti`, the
user's identity and comma-joined roles), then the optional purpose tags,
then `payload_parts.update(custom_claims)`. -/
def encodePayload (cfg : Config) (u : User)
    (override_access_lifespan override_refresh_lifespan : Option Nat)
    (is_registration_token is_reset_token : Bool)
    (custom_claims : ClaimSet) (moment : Int) (jti : String) : ClaimSet :=
  let refresh_lifespan := override_refresh_lifespan.getD cfg.refresh_lifespan
  let refresh_expiration : Int := moment + refresh_lifespan
  let access_lifespan := override_access_lifespan.getD cfg.access_lifespan
  let access_expiration : Int := min (moment + access_lifespan) refresh_expiration
  let payload0 : ClaimSet :=
    [("iat", .int moment),
     ("exp", .int access_expiration),
     ("jti", .str jti),
     ("id", u.identity),
     ("rls", .str (joinComma u.rolenames)),
     (REFRESH_EXPIRATION_CLAIM, .int refresh_expiration)]
  let payload1 :=
    if is_registration_token then
      insertClaim payload0 IS_REGISTRATION_TOKEN_CLAIM (.bool true)
    else payload0
  let payload2 :=
    if is_reset_token then
      insertClaim payload1 IS_RESET_TOKEN_CLAIM (.bool true)
    else payload1
  updateClaims payload2 custom_claims

/-- `Beskar.encode_jwt_token`, with `pendulum.now("UTC")` passed in as
`moment` and the fresh `uuid` as `jti`. The return value is the claim set
handed to `jwt.encode` (signature wrapping out of scope), paired with the
trace of effects performed. -/
def encode_jwt_token (cfg : Config) (user : Option User)
    (override_access_lifespan override_refresh_lifespan : Option Nat)
    (bypass_user_check is_registration_token is_reset_token : Bool)
    (custom_claims : ClaimSet) (moment : Int) (jti : String) :
    Except BeskarError ClaimSet × List EncodeEffect :=
  if claimsCollide custom_claims then (.error .claimCollisionError, [])
  else
    let chk : Except BeskarError Unit :=
      if bypass_user_check then .ok () else check_user user
    let eff0 : List EncodeEffect :=
      if bypass_user_check then [] else [.userCheck]
    match chk with
    | .error e => (.error e, eff0)
    | .ok () =>
      match user with
      | none => (.error .pyError, eff0)
      | some u =>
        let payload := encodePayload cfg u override_access_lifespan
          override_refresh_lifespan is_registration_token is_reset_token
          custom_claims moment jti
        let eff1 := eff0 ++ (if cfg.has_encode_hook then [.encodeHook] else [])
        (.ok payload, eff1 ++ [.codecCall])

/-- `Beskar.encode_paseto_token`: a line-for-line duplicate of the JWT body
in the source; the pyseto call re-encodes `exp` as an RFC3339 string built
from the same `access_expiration` (normalized back to the integer by
`extract_paseto_token`), so the claim set is kept in integer form here. -/
def encode_paseto_token (cfg : Config) (user : Option User)
    (override_access_lifespan override_refresh_lifespan : Option Nat)
    (bypass_user_check is_registration_token is_reset_token : Bool)
    (custom_claims : ClaimSet) (moment : Int) (jti : String) :
    Except BeskarError ClaimSet × List EncodeEffect :=
  if claimsCollide custom_claims then (.error .claimCollisionError, [])
  else
    let chk : Except BeskarError Unit :=
      if bypass_user_check then .ok () else check_user user
    let eff0 : List EncodeEffect :=
      if bypass_user_check then [] else [.userCheck]
    match chk with
    | .error e => (.error e, eff0)
    | .ok () =>
      match user with
      | none => (.error .pyError, eff0)
      | some u =>
        let payload := encodePayload cfg u override_access_lifespan
          override_refresh_lifespan is_registration_token is_reset_token
          custom_claims moment jti
        let eff1 := eff0 ++ (if cfg.has_encode_hook then [.encodeHook] else [])
        (.ok payload, eff1 ++ [.codecCall])

/-- `Beskar.encode_token`: dispatch on the configured provider. -/
def encode_token (cfg : Config) (user : Option User)
    (override_access_lifespan override_refresh_lifespan : Option Nat)
    (bypass_user_check is_registration_token is_reset_token : Bool)
    (custom_claims : ClaimSet) (moment : Int) (jti : String) :
    Except BeskarError ClaimSet × List EncodeEffect :=
  match cfg.token_provider with
  | .jwt =>
      encode_jwt_token cfg user override_access_lifespan override_refresh_lifespan
        bypass_user_check is_registration_token is_reset_token custom_claims moment jti
  | .paseto =>
      encode_paseto_token cfg user override_access_lifespan override_refresh_lifespan
        bypass_user_check is_registration_token is_reset_token custom_claims moment jti

/-- The purpose-specific tail of `Beskar._validate_token_data`
(the `if access_type == ...` chains after the five presence/blacklist
checks), in source order. -/
def purposeRules (data : ClaimSet) (access_type : AccessType) (moment : Int) :
    Except BeskarError Unit :=
  match access_type with
  | .access =>
    if hasKey data IS_REGISTRATION_TOKEN_CLAIM then .error .misusedRegistrationToken
    else if hasKey data IS_RESET_TOKEN_CLAIM then .error .misusedResetToken
    else
      match intClaim data "exp" with
      | none => .error .pyError
      | some e => if moment ≤ e then .ok () else .error .expiredAccessError
  | .refresh =>
    if hasKey data IS_REGISTRATION_TOKEN_CLAIM then .error .misusedRegistrationToken
    else if hasKey data IS_RESET_TOKEN_CLAIM then .error .misusedResetToken
    else
      match intClaim data "exp" with
      | none => .error .pyError
      | some e =>
        if moment > e then
          match intClaim data REFRESH_EXPIRATION_CLAIM with
          | none => .error .pyError
          | some r => if moment ≤ r then .ok () else .error .expiredRefreshError
        else .error .earlyRefreshError
  | .register =>
    match intClaim data "exp" with
    | none => .error .pyError
    | some e =>
      if moment ≤ e then
        if hasKey data IS_REGISTRATION_TOKEN_CLAIM then
          if hasKey data IS_RESET_TOKEN_CLAIM then .error .misusedResetToken
          else .ok ()
        else .error .invalidRegistrationToken
      else .error .expiredAccessError
  | .reset =>
    if hasKey data IS_REGISTRATION_TOKEN_CLAIM then .error .misusedRegistrationToken
    else
      match intClaim data "exp" with
      | none => .error .pyError
      | some e =>
        if moment ≤ e then
          if hasKey data IS_RESET_TOKEN_CLAIM then .ok ()
          else .error .invalidResetToken
        else .error .expiredAccessError

/-- `Beskar._validate_token_data`: the five presence/blacklist checks in
source order, then the purpose-specific rules. -/
def validate_token_data (cfg : Config) (data : ClaimSet) (access_type : AccessType)
    (moment : Int) : Except BeskarError Unit :=
  match getv data "jti" with
  | none => .error .missingClaimError
  | some jv =>
    if cfg.is_blacklisted jv then .error .blacklistedError
    else if !hasKey data "id" then .error .missingClaimError
    else if !hasKey data "exp" then .error .missingClaimError
    else if !hasKey data REFRESH_EXPIRATION_CLAIM then .error .missingClaimError
    else purposeRules data access_type moment

/-- `Beskar.extract_jwt_token` at the claim-set level: `jwt.decode` (with
expiry checking disabled) is out of scope, so the token stands for its
decoded claim set; what remains is validation then returning the data. -/
def extract_jwt_token (cfg : Config) (data : ClaimSet) (access_type : AccessType)
    (moment : Int) : Except BeskarError ClaimSet :=
  match validate_token_data cfg data access_type moment with
  | .error e => .error e
  | .ok () => .ok data

/-- `Beskar.refresh_jwt_token`: validate the old token for the refresh
purpose, re-resolve and re-check the user by identity, then rebuild the
payload preserving `jti` and the refresh expiry, recomputing `iat`/`exp`,
and carrying the old token's non-reserved claims forward.
`identify` is the user class's lookup-by-identity hook. -/
def refresh_jwt_token (cfg : Config) (identify : JVal → Option User)
    (data : ClaimSet) (override_access_lifespan : Option Nat) (moment : Int) :
    Except BeskarError ClaimSet :=
  match extract_jwt_token cfg data .refresh moment with
  | .error e => .error e
  | .ok d =>
    match getv d "id" with
    | none => .error .missingClaimError
    | some idv =>
      match check_user (identify idv) with
      | .error e => .error e
      | .ok () =>
        match identify idv with
        | none => .error .missingUserError
        | some user =>
          match getv d "jti" with
          | none => .error .missingClaimError
          | some jtiv =>
            match getv d REFRESH_EXPIRATION_CLAIM with
            | none => .error .missingClaimError
            | some rfv =>
              match rfv.asInt with
              | none => .error .pyError
              | some refresh_expiration =>
                let access_lifespan := override_access_lifespan.getD cfg.access_lifespan
                let access_expiration : Int :=
                  min (moment + access_lifespan) refresh_expiration
                let custom_claims :=
                  d.filter (fun p => !(RESERVED_CLAIMS.contains p.1))
                let payload0 : ClaimSet :=
                  [("iat", .int moment),
                   ("exp", .int access_expiration),
                   ("jti", jtiv),
                   ("id", idv),
                   ("rls", .str (joinComma user.rolenames)),
                   (REFRESH_EXPIRATION_CLAIM, rfv)]
                .ok (updateClaims payload0 custom_claims)

/-- Python string truthiness for the optional plaintext password
(`None` and the empty string are falsy). -/
def pyTruthy : Option String → Bool
  | none => false
  | some s => s ≠ ""

/-- `Beskar.verify_and_update`: if the stored hash needs updating, either
re-verify the supplied plaintext and re-hash it under the default scheme
(`AuthenticationError` on mismatch), or refuse with `LegacyScheme` when no
plaintext is available; a current-scheme hash returns the user unchanged.
`pwd_ctx.verify_and_update` with a hash needing update returns the new
default-scheme hash on success, embedded as `cfg.pwd_ctx.hash`. -/
def verify_and_update (cfg : Config) (user : User) (password : Option String) :
    Except BeskarError User :=
  if cfg.pwd_ctx.needs_update user.password then
    if pyTruthy password then
      let p := password.getD ""
      if cfg.pwd_ctx.verify p user.password then
        .ok { user with password := cfg.pwd_ctx.hash p }
      else .error .authenticationError
    else .error .legacyScheme
  else .ok user

/-- `Beskar._verify_totp` abstracted to its outcome: whether the passlib
verification of the submitted code against the user's stored TOTP
configuration returned a (truthy) match. The counter-cache read/write hooks
are side effects with no bearing on the returned value. -/
abbrev TotpVerify := String → String → Bool

/-- `Beskar.authenticate_totp`: optionally re-look the user up by username,
require a properly configured truthy JSON TOTP value, then require a
submitted token that verifies; all failures are `AuthenticationError`. -/
def authenticate_totp (lookup : String → Option User) (valid_json : String → Bool)
    (verify_totp : TotpVerify) (username : Sum String User) (token : Option String) :
    Except BeskarError User :=
  let user? : Option User :=
    match username with
    | .inl s => lookup s
    | .inr u => some u
  match user? with
  | none => .error .authenticationError
  | some user =>
    if !(user.hasTotpAttr && decide (user.totp ≠ "") && valid_json user.totp) then
      .error .authenticationError
    else
      match token with
      | none => .error .authenticationError
      | some t =>
        if verify_totp t user.totp then .ok user else .error .authenticationError

/-- `Beskar.authenticate`: look the user up, verify the password
(`AuthenticationError` otherwise); if the user has a `totp` attribute or a
token was supplied, either route through `authenticate_totp` (token given)
or raise `TOTPRequired` when enforcement is on; finally run the optional
hash auto-update / auto-test step. -/
def authenticate (cfg : Config) (lookup : String → Option User)
    (valid_json : String → Bool) (verify_totp : TotpVerify)
    (username password : String) (token : Option String) :
    Except BeskarError User :=
  match lookup username with
  | none => .error .authenticationError
  | some user =>
    if !cfg.pwd_ctx.verify password user.password then .error .authenticationError
    else
      let afterTotp : Except BeskarError User :=
        if user.hasTotpAttr || token.isSome then
          match token with
          | some t => authenticate_totp lookup valid_json verify_totp (.inl username) (some t)
          | none =>
            if cfg.totp_enforce then .error .totpRequired else .ok user
        else .ok user
      match afterTotp with
      | .error e => .error e
      | .ok u =>
        if cfg.hash_autoupdate then
          match verify_and_update cfg u (some password) with
          | .error e => .error e
          | .ok u2 => .ok u2
        else if cfg.hash_autotest then
          match verify_and_update cfg u none with
          | .error e => .error e
          | .ok _ => .ok u
        else .ok u

/-- The working payload of a PASETO token during `extract_paseto_token`:
raw ciphertext/signed bytes before a successful key attempt, a deserialized
claim set after one. -/
inductive PasetoPayload where
  | raw (s : String)
  | json (d : ClaimSet)
  deriving DecidableEq, Repr

/-- One configured PASETO key: its header (version/purpose tag compared with
the token's) and the combined outcome of decrypt-or-verify plus
`ujson.loads` on a given working payload (a deserialization failure is
already re-raised as `InvalidTokenHeader` inside the loop body). -/
structure PKey where
  header : String
  attempt : PasetoPayload → Except BeskarError PasetoPayload

/-- The key-trial loop of `Beskar.extract_paseto_token`, exactly as written:
`failed` starts as `None` and is overwritten by each matching key's failure
(never cleared by a success, and the loop has no break), each success
overwrites the working payload in place, and after the loop `failed` is
raised if set, otherwise the working payload is returned. -/
def extract_paseto_keyloop (keys : List PKey) (tokenHeader : String)
    (payload : PasetoPayload) : Except BeskarError PasetoPayload :=
  let st :=
    keys.foldl
      (fun (st : Option BeskarError × PasetoPayload) k =>
        if k.header ≠ tokenHeader then st
        else
          match k.attempt st.2 with
          | .ok p => (st.1, p)
          | .error e => (some e, st.2))
      (none, payload)
  match st.1 with
  | some e => .error e
  | none => .ok st.2

/-- A request, reduced to the two maps `read_token` reads. -/
structure Request where
  headers : List (String × String)
  cookies : List (String × String)

/-- `dict.get` on a header/cookie map. -/
def mapGet (m : List (String × String)) (k : String) : Option String :=
  match m with
  | [] => none
  | (k', v) :: rest => if k' = k then some v else mapGet rest k

/-- The character class `[\w\.-]` of the header regex (ASCII view of
Python's `\w`). -/
def isTokenChar (c : Char) : Bool :=
  c.isAlphanum || c = '_' || c = '.' || c = '-'

/-- `re.match(header_type + r"\s*([\w\.-]+)", s)`: the literal header-type
prefix, then greedily skipped whitespace, then a nonempty run of token
characters (whitespace and token characters are disjoint, so maximal munch
is exact). Returns the captured group. -/
def matchHeaderType (htype s : String) : Option String :=
  let cs := s.toList
  if htype.toList.isPrefixOf cs then
    let rest := (cs.drop htype.length).dropWhile (fun c => c.isWhitespace)
    let tok := rest.takeWhile isTokenChar
    if tok.isEmpty then none else some (String.mk tok)
  else none

/-- `Beskar._unpack_header`: `MissingToken` when the configured header is
absent, `InvalidTokenHeader` when its value does not match the
header-type/token structure, otherwise the captured token. -/
def unpack_header (cfg : Config) (headers : List (String × String)) :
    Except BeskarError String :=
  match mapGet headers cfg.header_name with
  | none => .error .missingToken
  | some token_header =>
    match matchHeaderType cfg.header_type token_header with
    | none => .error .invalidTokenHeader
    | some tok => .ok tok

/-- `Beskar._unpack_cookie`: `MissingToken` when the configured cookie is
absent, otherwise its value. -/
def unpack_cookie (cfg : Config) (cookies : List (String × String)) :
    Except BeskarError String :=
  match mapGet cookies cfg.cookie_name with
  | none => .error .missingToken
  | some token_cookie => .ok token_cookie

/-- `str.lower()` character-wise. -/
def lowerString (s : String) : String :=
  String.mk (s.toList.map Char.toLower)

/-- The `getattr(self, "read_token_from_" + place.lower())` dispatch of
`read_token`: the guard only defines the header and cookie readers, so any
other configured location raises `AttributeError`. -/
def read_token_from_place (cfg : Config) (req : Request) (place : String) :
    Except BeskarError String :=
  if lowerString place = "header" then unpack_header cfg req.headers
  else if lowerString place = "cookie" then unpack_cookie cfg req.cookies
  else .error .attributeError

/-- The location loop of `Beskar.read_token`: `MissingToken` from a location
is swallowed and the next location tried, an unrecognized location
(`AttributeError`) logs a warning and is skipped, any other error (such as
`InvalidTokenHeader`) propagates immediately; exhaustion raises
`MissingToken`. -/
def read_token_loop (cfg : Config) (req : Request) :
    List String → Except BeskarError String
  | [] => .error .missingToken
  | place :: rest =>
    match read_token_from_place cfg req place with
    | .ok t => .ok t
    | .error .missingToken => read_token_loop cfg req rest
    | .error .attributeError => read_token_loop cfg req rest
    | .error e => .error e

/-- `Beskar.read_token`: try each configured location in order. -/
def read_token (cfg : Config) (req : Request) : Except BeskarError String :=
  read_token_loop cfg req cfg.token_places

/-- The structured duration `pendulum.duration(**clean)` built by
`duration_from_string`. -/
structure Duration where
  years : Nat
  months : Nat
  days : Nat
  hours : Nat
  minutes : Nat
  seconds : Nat
  deriving DecidableEq, Repr

/-- Split a maximal leading run of decimal digits off a character list. -/
def takeDigits : List Char → List Char × List Char
  | [] => ([], [])
  | c :: cs =>
    if c.isDigit then
      let (ds, rest) := takeDigits cs
      (c :: ds, rest)
    else ([], c :: cs)

/-- Numeric value of a digit run (`int(v)` on a captured group). -/
def digitsVal (ds : List Char) : Nat :=
  ds.foldl (fun n c => n * 10 + (c.toNat - 48)) 0

/-- Drop a maximal leading run of `[a-z]` characters (the greedy `[a-z]*`
tail of each regex group; the following group starts with a digit, so
maximal munch is exact). -/
def dropLowerAZ : List Char → List Char
  | [] => []
  | c :: cs => if 'a' ≤ c ∧ c ≤ 'z' then dropLowerAZ cs else c :: cs

/-- One optional regex group `((?P<name>\d+)<unit>[a-z]*)?` of
`duration_from_string`: one or more digits, the literal unit, then greedily
consumed trailing letters; an unmatched group captures nothing and consumes
no input. -/
def tryGroup (unit : List Char) (s : List Char) : Option Nat × List Char :=
  let (ds, rest) := takeDigits s
  if ds.isEmpty then (none, s)
  else if unit.isPrefixOf rest then
    (some (digitsVal ds), dropLowerAZ (rest.drop unit.length))
  else (none, s)

/-- The six captured groups of `duration_from_string`'s regex, applied in
source order (years, months, days, hours, minutes, seconds) to an already
normalized character list. Since every group is optional, `re.match` itself
always succeeds; the parse is rejected later exactly when every group is
empty. -/
def durationGroups (s0 : List Char) : List (Option Nat) :=
  let (years, s1) := tryGroup ['y'] s0
  let (months, s2) := tryGroup ['m', 'o'] s1
  let (days, s3) := tryGroup ['d'] s2
  let (hours, s4) := tryGroup ['h'] s3
  let (minutes, s5) := tryGroup ['m'] s4
  let (seconds, _) := tryGroup ['s'] s5
  [years, months, days, hours, minutes, seconds]

/-- The normalization prefix of `duration_from_string`: strip spaces and
commas (`replace` with the empty string removes every occurrence), then
lower-case character-wise. -/
def durationNormalize (text : String) : List Char :=
  (text.toList.filter (fun c => !(c = ' ' || c = ','))).map Char.toLower

/-- `sanic_praetorian.utilities.duration_from_string`: normalize, match the
composite optional-groups pattern, fail with `ConfigurationError` when no
group captured anything (Python keeps a captured `"0"` — a truthy string —
so zero-valued components still count as matched), otherwise build the
duration from the captured components. -/
def duration_from_string (text : String) : Except BeskarError Duration :=
  let s0 := durationNormalize text
  let (years, s1) := tryGroup ['y'] s0
  let (months, s2) := tryGroup ['m', 'o'] s1
  let (days, s3) := tryGroup ['d'] s2
  let (hours, s4) := tryGroup ['h'] s3
  let (minutes, s5) := tryGroup ['m'] s4
  let (seconds, _) := tryGroup ['s'] s5
  if years.isNone && months.isNone && days.isNone && hours.isNone &&
      minutes.isNone && seconds.isNone then
    .error .configurationError
  else
    .ok ⟨years.getD 0, months.getD 0, days.getD 0,
         hours.getD 0, minutes.getD 0, seconds.getD 0⟩

/-! ## Dictionary lemmas -/

theorem getv_insertClaim_self (d : ClaimSet) (k : String) (v : JVal) :
    getv (insertClaim d k v) k = some v := by
  induction d with
  | nil => simp [insertClaim, getv]
  | cons p rest ih =>
    by_cases h : p.1 = k
    · simp [insertClaim, h, getv]
    · simp [insertClaim, h, getv, ih]

theorem getv_insertClaim_ne (d : ClaimSet) {k' k : String} (v : JVal) (h : k' ≠ k) :
    getv (insertClaim d k' v) k = getv d k := by
  induction d with
  | nil => simp [insertClaim, getv, h]
  | cons p rest ih =>
    by_cases hp : p.1 = k'
    · simp [insertClaim, hp, getv, h, hp ▸ h]
    · simp only [insertClaim, hp, if_false, getv, ih]

theorem hasKey_iff_mem_keys (d : ClaimSet) (k : String) :
    hasKey d k = true ↔ k ∈ d.map Prod.fst := by
  induction d with
  | nil => simp [hasKey, getv]
  | cons p rest ih =>
    by_cases h : p.1 = k
    · simp [hasKey, getv, h]
    · simpa [hasKey, getv, h, Ne.symm h] using ih

theorem getv_eq_none_of_hasKey_false {d : ClaimSet} {k : String}
    (h : hasKey d k = false) : getv d k = none := by
  unfold hasKey at h
  exact Option.not_isSome_iff_eq_none.mp (by simp [h])

theorem getv_updateClaims_of_hasKey_false {e : ClaimSet} {k : String}
    (d : ClaimSet) (h : hasKey e k = false) :
    getv (updateClaims d e) k = getv d k := by
  induction e generalizing d with
  | nil => rfl
  | cons p rest ih =>
    have hgetv := getv_eq_none_of_hasKey_false h
    simp only [getv] at hgetv
    by_cases hp : p.1 = k
    · simp [hp] at hgetv
    · have hrest : hasKey rest k = false := by
        simp only [hp, if_false] at hgetv
        simp [hasKey, hgetv]
      have : updateClaims d (p :: rest) = updateClaims (insertClaim d p.1 p.2) rest := rfl
      rw [this, ih (insertClaim d p.1 p.2) hrest, getv_insertClaim_ne _ _ hp]

theorem getv_updateClaims_of_getv {e : ClaimSet} {k : String} {v : JVal}
    (d : ClaimSet) (hnd : keysNodup e) (h : getv e k = some v) :
    getv (updateClaims d e) k = some v := by
  induction e generalizing d with
  | nil => simp [getv] at h
  | cons p rest ih =>
    have hstep : updateClaims d (p :: rest) = updateClaims (insertClaim d p.1 p.2) rest := rfl
    unfold keysNodup at hnd
    simp only [List.map_cons, List.nodup_cons] at hnd
    by_cases hp : p.1 = k
    · rw [getv, hp, if_pos rfl] at h
      have hrest : hasKey rest k = false := by
        cases hhk : hasKey rest k with
        | false => rfl
        | true => exact absurd ((hasKey_iff_mem_keys rest k).mp hhk) (hp ▸ hnd.1)
      rw [hstep, getv_updateClaims_of_hasKey_false _ hrest, ← hp,
        getv_insertClaim_self]
      exact h
    · rw [getv, if_neg hp] at h
      rw [hstep]
      exact ih (insertClaim d p.1 p.2) hnd.2 h

theorem keysNodup_filter (d : ClaimSet) (p : String × JVal → Bool)
    (h : keysNodup d) : keysNodup (d.filter p) := by
  unfold keysNodup at *
  exact h.sublist (List.Sublist.map Prod.fst (List.filter_sublist d))

theorem getv_filter_key (d : ClaimSet) (q : String → Bool) {k : String}
    (hq : q k = true) : getv (d.filter (fun p => q p.1)) k = getv d k := by
  induction d with
  | nil => rfl
  | cons p rest ih =>
    by_cases hp : p.1 = k
    · simp [getv, List.filter, hp, hq]
    · by_cases hqp : q p.1
      · simp [getv, List.filter, hqp, hp, ih]
      · simp [getv, List.filter, hqp, hp, ih]

theorem hasKey_false_of_claimsCollide_false {custom : ClaimSet} {k : String}
    (h : claimsCollide custom = false) (hk : RESERVED_CLAIMS.contains k = true) :
    hasKey custom k = false := by
  induction custom with
  | nil => rfl
  | cons p rest ih =>
    simp only [claimsCollide, List.any_cons, Bool.or_eq_false_iff] at h
    by_cases hp : p.1 = k
    · rw [hp] at h
      rw [h.1] at hk
      exact Bool.noConfusion hk
    · have hr := ih h.2
      unfold hasKey at hr ⊢
      rw [getv, if_neg hp]
      exact hr

/-- `encode_token` behaves as `encode_jwt_token` for both providers: the
PASETO encode body is a line-for-line duplicate of the JWT one at the
claim-set level. -/
theorem encode_token_eq_jwt (cfg : Config) (user : Option User)
    (oa orf : Option Nat) (byp reg rst : Bool) (custom : ClaimSet)
    (moment : Int) (jti : String) :
    encode_token cfg user oa orf byp reg rst custom moment jti =
      encode_jwt_token cfg user oa orf byp reg rst custom moment jti := by
  unfold encode_token
  cases cfg.token_provider
  · rfl
  · rfl

/-! ## Concrete fixtures used by witnesses -/

/-- A hasher where a current-scheme hash is the plaintext behind a marker. -/
def pwd0 : CryptContext :=
  ⟨fun p h => h = "h:" ++ p, fun h => !(decide (h.toList.take 2 = ['h', ':'])),
   fun p => "h:" ++ p, fun _ => "legacy"⟩

/-- A default-flavoured guard configuration (15 minute access lifespan,
30 day refresh lifespan, JWT provider, nothing blacklisted). -/
def cfg0 : Config :=
  ⟨.jwt, 900, 2592000, false, false, fun _ => false, pwd0, true, false, false,
   "Authorization", "Bearer", "access_token", ["header", "cookie"]⟩

/-- A user fixture for witnesses and counterexamples. -/
def user0 : User :=
  ⟨.int 1, ["admin", "operator"], "h:abides", none, false, "", "the_dude"⟩

/-- The reserved timing claims of an encode payload, provided the custom
claims are collision-free (which every successful encode guarantees). -/
theorem getv_encodePayload_timing (cfg : Config) (u : User)
    (oa orf : Option Nat) (reg rst : Bool) (custom : ClaimSet)
    (moment : Int) (jti : String) (hc : claimsCollide custom = false) :
    getv (encodePayload cfg u oa orf reg rst custom moment jti) "iat" =
      some (.int moment) ∧
    getv (encodePayload cfg u oa orf reg rst custom moment jti)
        REFRESH_EXPIRATION_CLAIM =
      some (.int (moment + (orf.getD cfg.refresh_lifespan : Nat))) ∧
    getv (encodePayload cfg u oa orf reg rst custom moment jti) "exp" =
      some (.int (min (moment + (oa.getD cfg.access_lifespan : Nat))
        (moment + (orf.getD cfg.refresh_lifespan : Nat)))) := by
  have hkiat : hasKey custom "iat" = false :=
    hasKey_false_of_claimsCollide_false hc (by decide)
  have hkexp : hasKey custom "exp" = false :=
    hasKey_false_of_claimsCollide_false hc (by decide)
  have hkrf : hasKey custom REFRESH_EXPIRATION_CLAIM = false :=
    hasKey_false_of_claimsCollide_false hc (by decide)
  unfold encodePayload
  refine ⟨?_, ?_, ?_⟩
  · rw [getv_updateClaims_of_hasKey_false _ hkiat]
    cases rst <;> cases reg <;> rfl
  · rw [getv_updateClaims_of_hasKey_false _ hkrf]
    cases rst <;> cases reg <;> rfl
  · rw [getv_updateClaims_of_hasKey_false _ hkexp]
    cases rst <;> cases reg <;> rfl

/-! ## Claim theorems -/

/-- **C1**: every claim set successfully produced by `encode_token` (either
codec) satisfies `iat ≤ exp ≤ refresh-expiry`, with
`refresh-expiry = iat + refresh lifespan` and
`exp = min(iat + access lifespan, refresh-expiry)`; in particular with a two
hour access lifespan and a one minute refresh lifespan issued at time `T`,
`exp = refresh-expiry = T + 1m`. -/
theorem claim_C1_encode_exp_invariant (cfg : Config) (user : Option User)
    (oa orf : Option Nat) (byp reg rst : Bool) (custom : ClaimSet)
    (moment : Int) (jti : String) (payload : ClaimSet) (effs : List EncodeEffect)
    (h : encode_token cfg user oa orf byp reg rst custom moment jti =
      (.ok payload, effs)) :
    getv payload "iat" = some (.int moment) ∧
    getv payload REFRESH_EXPIRATION_CLAIM =
      some (.int (moment + (orf.getD cfg.refresh_lifespan : Nat))) ∧
    getv payload "exp" =
      some (.int (min (moment + (oa.getD cfg.access_lifespan : Nat))
        (moment + (orf.getD cfg.refresh_lifespan : Nat)))) ∧
    moment ≤ min (moment + (oa.getD cfg.access_lifespan : Nat))
      (moment + (orf.getD cfg.refresh_lifespan : Nat)) ∧
    min (moment + (oa.getD cfg.access_lifespan : Nat))
      (moment + (orf.getD cfg.refresh_lifespan : Nat)) ≤
      moment + (orf.getD cfg.refresh_lifespan : Nat) ∧
    (oa.getD cfg.access_lifespan = 7200 → orf.getD cfg.refresh_lifespan = 60 →
      getv payload "exp" = some (.int (moment + 60)) ∧
      getv payload REFRESH_EXPIRATION_CLAIM = some (.int (moment + 60))) := by
  rw [encode_token_eq_jwt] at h
  unfold encode_jwt_token at h
  cases hc : claimsCollide custom with
  | true => simp [hc] at h
  | false =>
    rw [hc] at h
    simp only [Bool.false_eq_true, if_false] at h
    split at h
    next e heq => simp at h
    next heq =>
      cases user with
      | none => simp at h
      | some u =>
        simp only [Prod.mk.injEq, Except.ok.injEq] at h
        obtain ⟨hp, -⟩ := h
        subst hp
        obtain ⟨h1, h2, h3⟩ :=
          getv_encodePayload_timing cfg u oa orf reg rst custom moment jti hc
        refine ⟨h1, h2, h3, ?_, ?_, ?_⟩
        · exact le_min (by omega) (by omega)
        · exact min_le_right _ _
        · intro ha hr
          rw [h3, h2, ha, hr]
          refine ⟨congrArg some (congrArg JVal.int (by push_cast; omega)),
            congrArg some (congrArg JVal.int (by push_cast; omega))⟩

/-- A configuration with a two hour access lifespan and a one minute refresh
lifespan, for C1's witness. -/
def cfg1 : Config :=
  ⟨.jwt, 7200, 60, false, false, fun _ => false, pwd0, true, false, false,
   "Authorization", "Bearer", "access_token", ["header", "cookie"]⟩

/-- The claim set C1's witness encode produces. -/
def payload_C1 : ClaimSet :=
  [("iat", .int 1495391995), ("exp", .int 1495392055), ("jti", .str "jti1"),
   ("id", .int 1), ("rls", .str "admin,operator"),
   (REFRESH_EXPIRATION_CLAIM, .int 1495392055)]

/-- Witness for C1: a concrete encode at `T = 1495391995` with a 2h access /
1m refresh configuration yields `exp = refresh-expiry = T + 60`. -/
theorem claim_C1_witness :
    encode_token cfg1 (some user0) none none false false false [] 1495391995 "jti1" =
      (.ok payload_C1, [.userCheck, .codecCall]) ∧
    getv payload_C1 "exp" = some (.int 1495392055) ∧
    getv payload_C1 REFRESH_EXPIRATION_CLAIM = some (.int 1495392055) := by
  have h := claim_C1_encode_exp_invariant cfg1 (some user0) none none false false
    false [] 1495391995 "jti1" payload_C1 [.userCheck, .codecCall] (by rfl)
  have hpair := h.2.2.2.2.2 rfl rfl
  exact ⟨by rfl, by rw [hpair.1]; norm_num, by rw [hpair.2]; norm_num⟩

/-- **C2**: token-claims validation applies its rules in a fixed order with
the first violated rule determining the error: a missing `jti` raises
`MissingClaimError`; otherwise a blacklisted `jti` raises `BlacklistedError`;
otherwise a missing `id`, then a missing `exp`, then a missing refresh-expiry
claim each raise `MissingClaimError`; only after all five checks pass are the
purpose-specific rules applied. -/
theorem claim_C2_validation_order (cfg : Config) (data : ClaimSet)
    (access_type : AccessType) (moment : Int) :
    (getv data "jti" = none →
      validate_token_data cfg data access_type moment = .error .missingClaimError) ∧
    (∀ jv, getv data "jti" = some jv → cfg.is_blacklisted jv = true →
      validate_token_data cfg data access_type moment = .error .blacklistedError) ∧
    (∀ jv, getv data "jti" = some jv → cfg.is_blacklisted jv = false →
      hasKey data "id" = false →
      validate_token_data cfg data access_type moment = .error .missingClaimError) ∧
    (∀ jv, getv data "jti" = some jv → cfg.is_blacklisted jv = false →
      hasKey data "id" = true → hasKey data "exp" = false →
      validate_token_data cfg data access_type moment = .error .missingClaimError) ∧
    (∀ jv, getv data "jti" = some jv → cfg.is_blacklisted jv = false →
      hasKey data "id" = true → hasKey data "exp" = true →
      hasKey data REFRESH_EXPIRATION_CLAIM = false →
      validate_token_data cfg data access_type moment = .error .missingClaimError) ∧
    (∀ jv, getv data "jti" = some jv → cfg.is_blacklisted jv = false →
      hasKey data "id" = true → hasKey data "exp" = true →
      hasKey data REFRESH_EXPIRATION_CLAIM = true →
      validate_token_data cfg data access_type moment =
        purposeRules data access_type moment) := by
  refine ⟨?_, ?_, ?_, ?_, ?_, ?_⟩
  · intro h
    simp [validate_token_data, h]
  · intro jv hj hb
    simp [validate_token_data, hj, hb]
  · intro jv hj hb hid
    simp [validate_token_data, hj, hb, hid]
  · intro jv hj hb hid hexp
    simp [validate_token_data, hj, hb, hid, hexp]
  · intro jv hj hb hid hexp hrf
    simp [validate_token_data, hj, hb, hid, hexp, hrf]
  · intro jv hj hb hid hexp hrf
    simp [validate_token_data, hj, hb, hid, hexp, hrf]

/-- Claim data for C2's witness: all five presence checks pass. -/
def data_C2 : ClaimSet :=
  [("jti", .str "x"), ("id", .int 1), ("exp", .int 100),
   (REFRESH_EXPIRATION_CLAIM, .int 200)]

/-- Witness for C2: on a claim set carrying all required claims, validation
reduces to the purpose-specific rules. -/
theorem claim_C2_witness :
    validate_token_data cfg0 data_C2 .access 0 = purposeRules data_C2 .access 0 :=
  (claim_C2_validation_order cfg0 data_C2 .access 0).2.2.2.2.2 (.str "x")
    rfl rfl rfl rfl rfl

/-- **C4 counterexample**: the claim quantifies over every claim set carrying
a purpose tag, but the five presence/blacklist checks run before the tag
checks: a registration-tagged claim set missing `jti` fails with
`MissingClaimError`, not `MisusedRegistrationToken`. -/
theorem claim_C4_counterexample :
    validate_token_data cfg0 [(IS_REGISTRATION_TOKEN_CLAIM, .bool true)] .access 0 =
      .error .missingClaimError ∧
    BeskarError.missingClaimError ≠ BeskarError.misusedRegistrationToken :=
  ⟨rfl, by decide⟩

/-- **C4 (amended)**: for every claim set that passes the presence and
blacklist checks (`jti` present and not blacklisted, `id`, `exp` and the
refresh-expiry claim present): carrying the registration tag makes
validation with purpose access or refresh fail with
`MisusedRegistrationToken`, and carrying the reset tag without the
registration tag makes it fail with `MisusedResetToken`, at every time
`now` — the tag checks precede the timing checks. -/
theorem claim_C4_tag_checks_precede_timing (cfg : Config) (data : ClaimSet)
    (moment : Int) (jv : JVal)
    (hj : getv data "jti" = some jv) (hb : cfg.is_blacklisted jv = false)
    (hid : hasKey data "id" = true) (hexp : hasKey data "exp" = true)
    (hrf : hasKey data REFRESH_EXPIRATION_CLAIM = true) :
    (hasKey data IS_REGISTRATION_TOKEN_CLAIM = true →
      validate_token_data cfg data .access moment = .error .misusedRegistrationToken ∧
      validate_token_data cfg data .refresh moment = .error .misusedRegistrationToken) ∧
    (hasKey data IS_RESET_TOKEN_CLAIM = true →
      hasKey data IS_REGISTRATION_TOKEN_CLAIM = false →
      validate_token_data cfg data .access moment = .error .misusedResetToken ∧
      validate_token_data cfg data .refresh moment = .error .misusedResetToken) := by
  constructor
  · intro hreg
    constructor <;> simp [validate_token_data, purposeRules, hj, hb, hid, hexp, hrf, hreg]
  · intro hrst hreg
    constructor <;>
      simp [validate_token_data, purposeRules, hj, hb, hid, hexp, hrf, hreg, hrst]

/-- Claim data for C4's witness: a fully populated, registration-tagged
claim set whose `exp` is already in the past. -/
def data_C4 : ClaimSet :=
  [("jti", .str "x"), ("id", .int 1), ("exp", .int 100),
   (REFRESH_EXPIRATION_CLAIM, .int 200), (IS_REGISTRATION_TOKEN_CLAIM, .bool true)]

/-- Witness for C4 (amended): a registration-tagged token presented for
access at a time past its `exp` still fails with the tag error, showing the
tag check precedes the timing check. -/
theorem claim_C4_witness :
    validate_token_data cfg0 data_C4 .access 500 = .error .misusedRegistrationToken :=
  ((claim_C4_tag_checks_precede_timing cfg0 data_C4 500 (.str "x")
    rfl rfl rfl rfl rfl).1 rfl).1

/-- A key present in a filtered claim set is present in the original. -/
theorem hasKey_of_hasKey_filter {d : ClaimSet} {p : String × JVal → Bool}
    {k : String} (h : hasKey (d.filter p) k = true) : hasKey d k = true := by
  rw [hasKey_iff_mem_keys] at h ⊢
  exact (List.Sublist.map Prod.fst (List.filter_sublist d)).subset h

/-- An untagged claim set whose `exp` exceeds its refresh expiry (buildable
by hand, never by `encode_token`). -/
def data_C3 : ClaimSet :=
  [("jti", .str "x"), ("id", .int 1), ("exp", .int 100),
   (REFRESH_EXPIRATION_CLAIM, .int 50)]

/-- **C3 counterexample**: the claim asserts that refreshing any untagged
token while `now > refresh-expiry` fails with `ExpiredRefreshError`, but the
early-refresh rule is checked first: on a token with `exp = 100` and
refresh-expiry `50`, refreshing at `now = 80 > 50` fails with
`EarlyRefreshError` instead. -/
theorem claim_C3_counterexample :
    refresh_jwt_token cfg0 (fun _ => some user0) data_C3 none 80 =
      .error .earlyRefreshError ∧
    (50 : Int) < 80 ∧
    BeskarError.earlyRefreshError ≠ BeskarError.expiredRefreshError :=
  ⟨rfl, by decide, by decide⟩

/-- **C3 (amended)**: for every untagged token carrying `jti` (not
blacklisted), `id`, and integer `exp` and refresh-expiry claims: refreshing
while `now ≤ exp` fails with `EarlyRefreshError`; refreshing while
`now > exp` and `now > refresh-expiry` fails with `ExpiredRefreshError`;
refreshing with `exp < now ≤ refresh-expiry`, when the token's user resolves
and passes the validity check, succeeds, and the new token preserves the
original `jti` and refresh-expiry, recomputes `iat = now` and
`exp = min(now + access lifespan, refresh-expiry)`, and carries forward
every non-reserved claim of the old token. -/
theorem claim_C3_refresh_windows (cfg : Config) (identify : JVal → Option User)
    (data : ClaimSet) (override_access_lifespan : Option Nat) (moment : Int)
    (jv idv : JVal) (e r : Int)
    (hj : getv data "jti" = some jv) (hb : cfg.is_blacklisted jv = false)
    (hid : getv data "id" = some idv)
    (hexp : getv data "exp" = some (.int e))
    (hrf : getv data REFRESH_EXPIRATION_CLAIM = some (.int r))
    (hreg : hasKey data IS_REGISTRATION_TOKEN_CLAIM = false)
    (hrst : hasKey data IS_RESET_TOKEN_CLAIM = false) :
    (moment ≤ e →
      refresh_jwt_token cfg identify data override_access_lifespan moment =
        .error .earlyRefreshError) ∧
    (e < moment → r < moment →
      refresh_jwt_token cfg identify data override_access_lifespan moment =
        .error .expiredRefreshError) ∧
    (∀ user, identify idv = some user →
      (user.validate = none ∨ user.validate = some true) →
      keysNodup data → e < moment → moment ≤ r →
      ∃ payload,
        refresh_jwt_token cfg identify data override_access_lifespan moment =
          .ok payload ∧
        getv payload "jti" = some jv ∧
        getv payload REFRESH_EXPIRATION_CLAIM = some (.int r) ∧
        getv payload "iat" = some (.int moment) ∧
        getv payload "exp" =
          some (.int (min (moment + (override_access_lifespan.getD cfg.access_lifespan)) r)) ∧
        ∀ k, RESERVED_CLAIMS.contains k = false → getv payload k = getv data k) := by
  have hval : validate_token_data cfg data .refresh moment =
      purposeRules data .refresh moment := by
    simp [validate_token_data, hasKey, hj, hb, hid, hexp, hrf]
  refine ⟨?_, ?_, ?_⟩
  · intro hle
    have hpr : purposeRules data .refresh moment = .error .earlyRefreshError := by
      simp [purposeRules, hreg, hrst, intClaim, hexp, JVal.asInt, not_lt.mpr hle]
    simp [refresh_jwt_token, extract_jwt_token, hval, hpr]
  · intro hgt hrexp
    have hpr : purposeRules data .refresh moment = .error .expiredRefreshError := by
      simp [purposeRules, hreg, hrst, intClaim, hexp, hrf, JVal.asInt, hgt,
        not_le.mpr hrexp]
    simp [refresh_jwt_token, extract_jwt_token, hval, hpr]
  · intro user huser hvalid hnd hgt hle
    have hpr : purposeRules data .refresh moment = .ok () := by
      simp [purposeRules, hreg, hrst, intClaim, hexp, hrf, JVal.asInt, hgt, hle]
    have hchk : check_user (identify idv) = .ok () := by
      rcases hvalid with hv | hv <;> simp [check_user, huser, hv]
    have hchk' : check_user (some user) = .ok () := by
      rw [← huser]
      exact hchk
    have hrefresh : refresh_jwt_token cfg identify data override_access_lifespan moment =
        .ok (updateClaims
          [("iat", .int moment),
           ("exp", .int (min (moment + (override_access_lifespan.getD cfg.access_lifespan)) r)),
           ("jti", jv),
           ("id", idv),
           ("rls", .str (joinComma user.rolenames)),
           (REFRESH_EXPIRATION_CLAIM, .int r)]
          (data.filter (fun p => !(RESERVED_CLAIMS.contains p.1)))) := by
      simp [refresh_jwt_token, extract_jwt_token, hval, hpr, hid, hchk, hchk', huser,
        hj, hrf, JVal.asInt]
    refine ⟨_, hrefresh, ?_, ?_, ?_, ?_, ?_⟩
    · have hnf : hasKey (data.filter (fun p => !(RESERVED_CLAIMS.contains p.1))) "jti" = false := by
        cases hhk : hasKey (data.filter (fun p => !(RESERVED_CLAIMS.contains p.1))) "jti" with
        | false => rfl
        | true =>
          rw [hasKey_iff_mem_keys] at hhk
          rcases List.mem_map.mp hhk with ⟨q, hq, hqk⟩
          have := List.of_mem_filter hq
          rw [hqk] at this
          simp [RESERVED_CLAIMS] at this
      rw [getv_updateClaims_of_hasKey_false _ hnf]
      rfl
    · have hnf : hasKey (data.filter (fun p => !(RESERVED_CLAIMS.contains p.1)))
          REFRESH_EXPIRATION_CLAIM = false := by
        cases hhk : hasKey (data.filter (fun p => !(RESERVED_CLAIMS.contains p.1)))
            REFRESH_EXPIRATION_CLAIM with
        | false => rfl
        | true =>
          rw [hasKey_iff_mem_keys] at hhk
          rcases List.mem_map.mp hhk with ⟨q, hq, hqk⟩
          have := List.of_mem_filter hq
          rw [hqk] at this
          simp [RESERVED_CLAIMS, REFRESH_EXPIRATION_CLAIM] at this
      rw [getv_updateClaims_of_hasKey_false _ hnf]
      rfl
    · have hnf : hasKey (data.filter (fun p => !(RESERVED_CLAIMS.contains p.1))) "iat" = false := by
        cases hhk : hasKey (data.filter (fun p => !(RESERVED_CLAIMS.contains p.1))) "iat" with
        | false => rfl
        | true =>
          rw [hasKey_iff_mem_keys] at hhk
          rcases List.mem_map.mp hhk with ⟨q, hq, hqk⟩
          have := List.of_mem_filter hq
          rw [hqk] at this
          simp [RESERVED_CLAIMS] at this
      rw [getv_updateClaims_of_hasKey_false _ hnf]
      rfl
    · have hnf : hasKey (data.filter (fun p => !(RESERVED_CLAIMS.contains p.1))) "exp" = false := by
        cases hhk : hasKey (data.filter (fun p => !(RESERVED_CLAIMS.contains p.1))) "exp" with
        | false => rfl
        | true =>
          rw [hasKey_iff_mem_keys] at hhk
          rcases List.mem_map.mp hhk with ⟨q, hq, hqk⟩
          have := List.of_mem_filter hq
          rw [hqk] at this
          simp [RESERVED_CLAIMS] at this
      rw [getv_updateClaims_of_hasKey_false _ hnf]
      rfl
    · intro k hk
      by_cases hmem : hasKey data k = true
      · have hgf : getv (data.filter (fun p => !(RESERVED_CLAIMS.contains p.1))) k =
            getv data k := by
          have heq : (fun p : String × JVal => !(RESERVED_CLAIMS.contains p.1)) =
              (fun p : String × JVal => (fun s => !(RESERVED_CLAIMS.contains s)) p.1) := rfl
          rw [heq, getv_filter_key data (fun s => !(RESERVED_CLAIMS.contains s))
            (by simpa using hk)]
        rcases Option.isSome_iff_exists.mp (by simpa [hasKey] using hmem) with ⟨v, hv⟩
        rw [getv_updateClaims_of_getv _
          (keysNodup_filter data _ hnd) (hgf.trans hv), hv]
      · have hdn : hasKey data k = false := by
          cases hhk : hasKey data k with
          | false => rfl
          | true => exact absurd hhk hmem
        have hnf : hasKey (data.filter (fun p => !(RESERVED_CLAIMS.contains p.1))) k = false := by
          cases hhk : hasKey (data.filter (fun p => !(RESERVED_CLAIMS.contains p.1))) k with
          | false => rfl
          | true => exact absurd (hasKey_of_hasKey_filter hhk) hmem
        rw [getv_updateClaims_of_hasKey_false _ hnf,
          getv_eq_none_of_hasKey_false hdn]
        have hk' : k ∉ RESERVED_CLAIMS := by
          simpa using hk
        simp only [RESERVED_CLAIMS, List.mem_cons, List.mem_singleton,
          not_or] at hk'
        obtain ⟨h1, h2, h3, h4, h5, h6, _, _⟩ := hk'
        simp [getv, Ne.symm h1, Ne.symm h2, Ne.symm h3, Ne.symm h4,
          Ne.symm h5, Ne.symm h6]

/-- Claim data for C3's witness: a well-formed untagged token carrying one
custom claim. -/
def data_C3w : ClaimSet :=
  [("jti", .str "x"), ("id", .int 1), ("exp", .int 100),
   (REFRESH_EXPIRATION_CLAIM, .int 200), ("flavor", .str "caucasian")]

/-- Witness for C3 (amended): refreshing inside the window succeeds,
preserving `jti`, the refresh expiry and the custom claim, and recomputing
`iat` and `exp`. -/
theorem claim_C3_witness :
    ∃ payload,
      refresh_jwt_token cfg0 (fun _ => some user0) data_C3w none 150 = .ok payload ∧
      getv payload "jti" = some (.str "x") ∧
      getv payload REFRESH_EXPIRATION_CLAIM = some (.int 200) ∧
      getv payload "iat" = some (.int 150) ∧
      getv payload "exp" =
        some (.int (min ((150 : Int) + (Option.getD (none : Option Nat) cfg0.access_lifespan : Nat)) 200)) ∧
      ∀ k, RESERVED_CLAIMS.contains k = false → getv payload k = getv data_C3w k :=
  (claim_C3_refresh_windows cfg0 (fun _ => some user0) data_C3w none 150
    (.str "x") (.int 1) 100 200 rfl rfl rfl rfl rfl rfl rfl).2.2 user0 rfl
    (Or.inl rfl) (by unfold keysNodup; decide) (by decide) (by decide)

/-- **C5**: for every user (present, absent, valid or invalid) and every
custom-claims mapping containing a reserved key, `encode_token` — via either
`encode_jwt_token` or `encode_paseto_token` — fails with
`ClaimCollisionError` before any other effect: no user-validity check, no
encode-hook invocation and no codec call appear in the effect trace. -/
theorem claim_C5_collision_before_effects (cfg : Config) (user : Option User)
    (oa orf : Option Nat) (byp reg rst : Bool) (custom : ClaimSet)
    (moment : Int) (jti : String) (h : claimsCollide custom = true) :
    encode_jwt_token cfg user oa orf byp reg rst custom moment jti =
      (.error .claimCollisionError, []) ∧
    encode_paseto_token cfg user oa orf byp reg rst custom moment jti =
      (.error .claimCollisionError, []) ∧
    encode_token cfg user oa orf byp reg rst custom moment jti =
      (.error .claimCollisionError, []) := by
  refine ⟨?_, ?_, ?_⟩
  · simp [encode_jwt_token, h]
  · simp [encode_paseto_token, h]
  · rw [encode_token_eq_jwt]
    simp [encode_jwt_token, h]

/-- Witness for C5: a custom claim named `exp` makes `encode_token` fail
with `ClaimCollisionError` and an empty effect trace, even with no user at
all (so the user check never ran). -/
theorem claim_C5_witness :
    encode_token cfg0 none none none false false false [("exp", .int 0)] 0 "j" =
      (.error .claimCollisionError, []) :=
  (claim_C5_collision_before_effects cfg0 none none none false false false
    [("exp", .int 0)] 0 "j" rfl).2.2

/-- **C6 (code evaluated at the failing input)**: the PASETO key-trial loop
does not stop at the first key that succeeds and never clears `failed`: with
two keys of the matching header where the first key's attempt fails and the
second key's attempt succeeds, the loop raises the first key's failure, even
though the second key alone would have returned its payload. -/
theorem claim_C6_keyloop_failure_not_swallowed :
    extract_paseto_keyloop
      [⟨"v4.local.", fun _ => .error .invalidTokenHeader⟩,
       ⟨"v4.local.", fun _ => .ok (.json [("id", .int 1)])⟩]
      "v4.local." (.raw "tok") = .error .invalidTokenHeader ∧
    extract_paseto_keyloop
      [⟨"v4.local.", fun _ => .ok (.json [("id", .int 1)])⟩]
      "v4.local." (.raw "tok") = .ok (.json [("id", .int 1)]) ∧
    extract_paseto_keyloop
      [⟨"v4.local.", fun _ => .error .invalidTokenHeader⟩,
       ⟨"v4.local.", fun _ => .error .pyError⟩]
      "v4.local." (.raw "tok") = .error .pyError :=
  ⟨rfl, rfl, rfl⟩

/-- **C7**: with a verifying password and a user carrying TOTP state,
`authenticate` without a token under global TOTP enforcement fails with
`TOTPRequired`, an error kind distinct from `AuthenticationError`; a
non-verifying password fails with `AuthenticationError`; and a supplied
token routes the call through `authenticate_totp`. -/
theorem claim_C7_totp_required (cfg : Config) (lookup : String → Option User)
    (valid_json : String → Bool) (verify_totp : TotpVerify)
    (username password : String) :
    (∀ user, lookup username = some user →
      cfg.pwd_ctx.verify password user.password = true →
      user.hasTotpAttr = true → cfg.totp_enforce = true →
      authenticate cfg lookup valid_json verify_totp username password none =
        .error .totpRequired) ∧
    BeskarError.totpRequired ≠ BeskarError.authenticationError ∧
    (∀ user token, lookup username = some user →
      cfg.pwd_ctx.verify password user.password = false →
      authenticate cfg lookup valid_json verify_totp username password token =
        .error .authenticationError) ∧
    (∀ user t, lookup username = some user →
      cfg.pwd_ctx.verify password user.password = true →
      cfg.hash_autoupdate = false → cfg.hash_autotest = false →
      authenticate cfg lookup valid_json verify_totp username password (some t) =
        authenticate_totp lookup valid_json verify_totp (.inl username) (some t)) := by
  refine ⟨?_, by decide, ?_, ?_⟩
  · intro user hl hv ht he
    simp [authenticate, hl, hv, ht, he]
  · intro user token hl hv
    simp [authenticate, hl, hv]
  · intro user t hl hv hau hat
    cases hr : authenticate_totp lookup valid_json verify_totp (.inl username) (some t) with
    | error e => simp [authenticate, hl, hv, hr]
    | ok u => simp [authenticate, hl, hv, hr, hau, hat]

/-- A TOTP-enrolled user for C7's witness. -/
def userT : User :=
  ⟨.int 2, ["admin"], "h:pw", none, true, "{}", "maude"⟩

/-- Witness for C7: the TOTP-enrolled user with the right password and no
token fails with `TOTPRequired` under the (enforcing) default
configuration. -/
theorem claim_C7_witness :
    authenticate cfg0 (fun s => if s = "maude" then some userT else none)
      (fun _ => true) (fun _ _ => true) "maude" "pw" none = .error .totpRequired :=
  (claim_C7_totp_required cfg0 (fun s => if s = "maude" then some userT else none)
    (fun _ => true) (fun _ _ => true) "maude" "pw").1 userT (by decide)
    (by decide) rfl rfl

/-- **C8**: `verify_and_update` returns the user unchanged when the stored
hash is already under the current default scheme; on a hash needing update
it fails with `LegacyScheme` when no plaintext is supplied, re-hashes the
password under the default scheme when the correct plaintext is supplied,
and fails with `AuthenticationError` when the plaintext does not verify. -/
theorem claim_C8_verify_and_update (cfg : Config) (user : User) :
    (cfg.pwd_ctx.needs_update user.password = false →
      verify_and_update cfg user none = .ok user ∧
      ∀ p, verify_and_update cfg user (some p) = .ok user) ∧
    (cfg.pwd_ctx.needs_update user.password = true →
      verify_and_update cfg user none = .error .legacyScheme) ∧
    (∀ p, cfg.pwd_ctx.needs_update user.password = true → p ≠ "" →
      cfg.pwd_ctx.verify p user.password = true →
      verify_and_update cfg user (some p) =
        .ok { user with password := cfg.pwd_ctx.hash p }) ∧
    (∀ p, cfg.pwd_ctx.needs_update user.password = true → p ≠ "" →
      cfg.pwd_ctx.verify p user.password = false →
      verify_and_update cfg user (some p) = .error .authenticationError) := by
  refine ⟨?_, ?_, ?_, ?_⟩
  · intro h
    exact ⟨by simp [verify_and_update, h], fun p => by simp [verify_and_update, h]⟩
  · intro h
    simp [verify_and_update, h, pyTruthy]
  · intro p h hp hv
    simp [verify_and_update, h, pyTruthy, hp, hv]
  · intro p h hp hv
    simp [verify_and_update, h, pyTruthy, hp, hv]

/-- A user whose stored hash predates the current default scheme, for C8's
witness. -/
def userL : User :=
  ⟨.int 3, [], "plain-old-hash", none, false, "", "walter"⟩

/-- Witness for C8: a current-scheme hash passes through unchanged, and a
stale hash with no plaintext is refused with `LegacyScheme`. -/
theorem claim_C8_witness :
    verify_and_update cfg0 user0 none = .ok user0 ∧
    verify_and_update cfg0 userL none = .error .legacyScheme :=
  ⟨((claim_C8_verify_and_update cfg0 user0).1 (by decide)).1,
   (claim_C8_verify_and_update cfg0 userL).2.1 (by decide)⟩

/-- **C9**: `duration_from_string` is a pure function that strips spaces and
commas, lower-cases the input, matches the optional
year/month/day/hour/minute/second components (each an integer followed by
its unit letter(s) and greedily consumed trailing letters), and returns the
corresponding duration; it fails, and fails only, with `ConfigurationError`,
exactly when no component matches. -/
theorem claim_C9_duration_from_string_rules (text : String) :
    (duration_from_string text = .error .configurationError ↔
      durationGroups (durationNormalize text) =
        [none, none, none, none, none, none]) ∧
    (∀ e, duration_from_string text = .error e → e = .configurationError) ∧
    duration_from_string "1y11d20m" = .ok ⟨1, 0, 11, 0, 20, 0⟩ ∧
    duration_from_string "7 Days, 45 Minutes" = .ok ⟨0, 0, 7, 0, 45, 0⟩ ∧
    duration_from_string "1 Hour" = .ok ⟨0, 0, 0, 1, 0, 0⟩ ∧
    duration_from_string "nonsense" = .error .configurationError ∧
    duration_from_string "" = .error .configurationError := by
  rcases hy : tryGroup ['y'] (durationNormalize text) with ⟨y, s1⟩
  rcases hmo : tryGroup ['m', 'o'] s1 with ⟨mo, s2⟩
  rcases hd : tryGroup ['d'] s2 with ⟨d, s3⟩
  rcases hho : tryGroup ['h'] s3 with ⟨ho, s4⟩
  rcases hmi : tryGroup ['m'] s4 with ⟨mi, s5⟩
  rcases hse : tryGroup ['s'] s5 with ⟨se, s6⟩
  have hchar : duration_from_string text =
      (if (y.isNone && mo.isNone && d.isNone && ho.isNone &&
          mi.isNone && se.isNone) then
        .error .configurationError
      else .ok ⟨y.getD 0, mo.getD 0, d.getD 0, ho.getD 0, mi.getD 0, se.getD 0⟩) := by
    simp only [duration_from_string, hy, hmo, hd, hho, hmi, hse]
  have hgroups : durationGroups (durationNormalize text) = [y, mo, d, ho, mi, se] := by
    simp only [durationGroups, hy, hmo, hd, hho, hmi, hse]
  refine ⟨?_, ?_, rfl, rfl, rfl, rfl, rfl⟩
  · rw [hchar, hgroups]
    by_cases hc : (y.isNone && mo.isNone && d.isNone && ho.isNone &&
        mi.isNone && se.isNone) = true
    · rw [if_pos hc]
      simp only [Bool.and_eq_true, Option.isNone_iff_eq_none] at hc
      simp [hc]
    · rw [if_neg hc]
      refine iff_of_false (by simp) ?_
      intro hlist
      simp only [List.cons.injEq, and_true] at hlist
      obtain ⟨h1, h2, h3, h4, h5, h6⟩ := hlist
      exact hc (by simp [h1, h2, h3, h4, h5, h6])
  · intro e he
    rw [hchar] at he
    by_cases hc : (y.isNone && mo.isNone && d.isNone && ho.isNone &&
        mi.isNone && se.isNone) = true
    · rw [if_pos hc] at he
      injection he with h2
      exact h2.symm
    · rw [if_neg hc] at he
      exact absurd he (by simp)

/-- Witness for C9: an input in which no component matches fails with
`ConfigurationError`. -/
theorem claim_C9_witness :
    duration_from_string "xyz" = .error .configurationError :=
  (claim_C9_duration_from_string_rules "xyz").1.mpr rfl

/-- **C10**: `read_token` skips a configured location only when the token is
absent there (`MissingToken`) or the location name is unrecognized
(`AttributeError`, warning logged); but when the configured header is
present with a value that does not match the header-type/token structure,
the resulting `InvalidTokenHeader` propagates immediately and no later
location is tried — in particular with the default `header, cookie` order, a
malformed header masks a perfectly good cookie token. -/
theorem claim_C10_read_token_masking (cfg : Config) (req : Request) :
    (∀ place rest, read_token_from_place cfg req place = .error .missingToken →
      read_token_loop cfg req (place :: rest) = read_token_loop cfg req rest) ∧
    (∀ place rest, read_token_from_place cfg req place = .error .attributeError →
      read_token_loop cfg req (place :: rest) = read_token_loop cfg req rest) ∧
    (∀ rest, unpack_header cfg req.headers = .error .invalidTokenHeader →
      read_token_loop cfg req ("header" :: rest) = .error .invalidTokenHeader) ∧
    (cfg.token_places = ["header", "cookie"] →
      unpack_header cfg req.headers = .error .invalidTokenHeader →
      read_token cfg req = .error .invalidTokenHeader) := by
  have hskip1 : ∀ place rest,
      read_token_from_place cfg req place = .error .missingToken →
      read_token_loop cfg req (place :: rest) = read_token_loop cfg req rest := by
    intro place rest h
    simp [read_token_loop, h]
  have hskip2 : ∀ place rest,
      read_token_from_place cfg req place = .error .attributeError →
      read_token_loop cfg req (place :: rest) = read_token_loop cfg req rest := by
    intro place rest h
    simp [read_token_loop, h]
  have hhdr : ∀ rest, unpack_header cfg req.headers = .error .invalidTokenHeader →
      read_token_loop cfg req ("header" :: rest) = .error .invalidTokenHeader := by
    intro rest h
    have hplace : read_token_from_place cfg req "header" =
        .error .invalidTokenHeader := by
      rw [read_token_from_place,
        if_pos (show lowerString "header" = "header" from rfl)]
      exact h
    simp [read_token_loop, hplace]
  refine ⟨hskip1, hskip2, hhdr, ?_⟩
  intro hplaces h
  rw [read_token, hplaces]
  exact hhdr ["cookie"] h

/-- A request whose configured header is present but malformed while the
cookie carries a token, for C10's witness. -/
def req_C10 : Request :=
  ⟨[("Authorization", "Bearer!!!")], [("access_token", "tok")]⟩

/-- Witness for C10: the malformed header aborts the search with
`InvalidTokenHeader` even though the cookie location (tried later in the
configured order) holds a token. -/
theorem claim_C10_witness :
    read_token cfg0 req_C10 = .error .invalidTokenHeader ∧
    unpack_cookie cfg0 req_C10.cookies = .ok "tok" :=
  ⟨(claim_C10_read_token_masking cfg0 req_C10).2.2.2 rfl rfl, rfl⟩

end Beskar
